import Mathlib

/-!
# Verification of `contiguous-view.h`

Shallow embedding of the single-header library `src/contiguous-view.h`:
a non-owning view over a contiguous run of elements, with a compile-time
(static) or run-time (dynamic) extent.

Modelling decisions:
* `size_t` values are natural numbers; where the C++ code performs `size_t`
  arithmetic that can wrap (subtraction of pointers cast to `size_t`,
  multiplication in `size_bytes`), we reduce modulo `2 ^ 64` explicitly.
* Pointers are modelled as byte addresses of type `Int` (exact pointer
  arithmetic; an element pointer into a view of element size `s` advances by
  `s` per element).  `as_bytes` then reuses the very same address.
* `assert(...)`—a halt of execution in debug builds—is modelled by returning
  `none` from an `Option`-valued operation; `some v` is normal completion.
* The class template `contiguous_view<T, Extent>` is modelled by
  `contiguous_view sizeofT Extent` where `sizeofT = sizeof(T)`; the element
  type itself plays no role in the verified claims beyond its size.
-/

set_option autoImplicit false

/-- The cardinality of `size_t` (64-bit): `size_t` arithmetic wraps mod `2 ^ 64`. -/
def size_t_card : Nat := 2 ^ 64

/-- Source `inline constexpr size_t dynamic_extent = -1;` (line 8): `SIZE_MAX`. -/
def dynamic_extent : Nat := size_t_card - 1

namespace details

/-- Source `details::storage<Size>` (lines 11-30).  The static specialisation
(`Size ≠ dynamic_extent`) stores nothing and its constructor discards the
count; the dynamic specialisation stores the count in `_size`.  We keep one
structure for both: for a static extent the field is never read (and is
normalised to `0` by `ofCount`, so that value equality matches the C++
empty struct, all of whose instances are indistinguishable). -/
structure storage (Extent : Nat) : Type where
  _size : Nat
deriving DecidableEq, Repr

/-- The two constructors `storage(size_t)`: the static one (line 13) discards
its argument, the dynamic one (line 22) stores it. -/
def storage.ofCount (Extent : Nat) (count : Nat) : storage Extent :=
  if Extent = dynamic_extent then ⟨count⟩ else ⟨0⟩

/-- Source `storage::size()` (lines 15-17 and 24-26): the compile-time constant for
a static extent, the stored count for the dynamic one. -/
def storage.size {Extent : Nat} (st : storage Extent) : Nat :=
  if Extent = dynamic_extent then st._size else Extent

end details

/-- Source `contiguous_view<T, Extent>` (lines 33-187): an extent storage `st` plus a
base pointer `_data` (a byte address). `sizeofT` is `sizeof(T)`. -/
structure contiguous_view (sizeofT : Nat) (Extent : Nat) : Type where
  st : details.storage Extent
  _data : Int
deriving DecidableEq, Repr

namespace contiguous_view

variable {sizeofT Extent : Nat}

/-- The default constructor (line 46): `st(0)`, `_data(nullptr)`. -/
def default (sizeofT Extent : Nat) : contiguous_view sizeofT Extent :=
  ⟨details.storage.ofCount Extent 0, 0⟩

/-- The `(It first, size_t count)` constructor (lines 48-55): initialises
`st(count)` and `_data(std​::to_address(first))`, then, when the extent is
static, `assert(count == Extent)`. -/
def ofPtrCount (sizeofT Extent : Nat) (first : Int) (count : Nat) :
    Option (contiguous_view sizeofT Extent) :=
  if Extent ≠ dynamic_extent ∧ count ≠ Extent then none
  else some ⟨details.storage.ofCount Extent count, first⟩

/-- The `(It first, It last)` constructor (lines 57-61): delegates to the
`(first, static_cast<size_t>(last - first))` constructor, then
`assert(first <= last)`.  The iterator difference `last - first` is an
element count: `(last - first) / sizeof(T)` on byte addresses, cast to
`size_t` (reduced mod `2 ^ 64`). -/
def ofPtrPtr (sizeofT Extent : Nat) (first last : Int) :
    Option (contiguous_view sizeofT Extent) :=
  match ofPtrCount sizeofT Extent first
      (((last - first) / (sizeofT : Int)).toNat % size_t_card) with
  | none => none
  | some v => if first ≤ last then some v else none

/-- The converting constructor from `contiguous_view<U, N>` (lines 65-69):
delegates to `(other.data(), other.size())`.  It only participates in
overload resolution when `Extent == dynamic_extent || N == dynamic_extent ||
Extent == N`; we model the constructor body itself, and theorems that use it
only do so at extent pairs satisfying that condition. -/
def ofView {N : Nat} (sizeofT Extent : Nat) (other : contiguous_view sizeofT N) :
    Option (contiguous_view sizeofT Extent) :=
  ofPtrCount sizeofT Extent other._data (details.storage.size other.st)

/-- Source `data()` (lines 73-75). -/
def data (v : contiguous_view sizeofT Extent) : Int :=
  v._data

/-- Source `size()` (lines 77-79): `st.size()`. -/
def size (v : contiguous_view sizeofT Extent) : Nat :=
  v.st.size

/-- Source `size_bytes()` (lines 81-83): `sizeof(T) * size()` in `size_t` arithmetic. -/
def size_bytes (v : contiguous_view sizeofT Extent) : Nat :=
  (sizeofT * v.size) % size_t_card

/-- Source `empty()` (lines 85-87). -/
def empty (v : contiguous_view sizeofT Extent) : Bool :=
  v.size == 0

/-- Source `begin()` (lines 89-91): returns `data()`. -/
def begin (v : contiguous_view sizeofT Extent) : Int :=
  v.data

/-- Source `cbegin()` (lines 93-95): returns `data()`. -/
def cbegin (v : contiguous_view sizeofT Extent) : Int :=
  v.data

/-- Source `end()` (lines 97-99): `begin() + size()`, an element-pointer advance. -/
def endp (v : contiguous_view sizeofT Extent) : Int :=
  v.begin + v.size * sizeofT

/-- Source `cend()` (lines 101-103): `begin() + size()`. -/
def cend (v : contiguous_view sizeofT Extent) : Int :=
  v.begin + v.size * sizeofT

/-- Source `operator[](size_t idx)` (lines 105-108): `assert(idx < size())`, then the
reference `*(data() + idx)`, modelled by the referenced element's address. -/
def getAt (v : contiguous_view sizeofT Extent) (idx : Nat) : Option Int :=
  if idx < v.size then some (v.data + idx * sizeofT) else none

/-- Source `front()` (lines 110-112): `*begin()` — no assertion is performed; the
result is the address `begin()` whatever the size. -/
def front (v : contiguous_view sizeofT Extent) : Int :=
  v.begin

/-- Source `back()` (lines 114-116): `*(end() - 1)` — no assertion is performed; the
result is the address `end() - 1` (one element before `end()`) whatever the
size. -/
def back (v : contiguous_view sizeofT Extent) : Int :=
  v.endp - sizeofT

/-- Source `subview(size_t offset, size_t count = dynamic_extent)` (lines 118-121):
`assert(offset <= size() && (count == dynamic_extent || count <= size() -
offset))`, then a dynamic-extent view at `data() + offset` of
`count == dynamic_extent ? size() - offset : count` elements. -/
def subview (v : contiguous_view sizeofT Extent) (offset : Nat)
    (count : Nat := dynamic_extent) : Option (contiguous_view sizeofT dynamic_extent) :=
  if offset ≤ v.size ∧ (count = dynamic_extent ∨ count ≤ v.size - offset) then
    ofPtrCount sizeofT dynamic_extent (v.data + offset * sizeofT)
      (if count = dynamic_extent then v.size - offset else count)
  else none

/-- Source `first(size_t count)` (lines 152-155): `assert(count <= size())`, then a
dynamic-extent view `(begin(), count)`. -/
def first (v : contiguous_view sizeofT Extent) (count : Nat) :
    Option (contiguous_view sizeofT dynamic_extent) :=
  if count ≤ v.size then ofPtrCount sizeofT dynamic_extent v.begin count
  else none

/-- Source `last(size_t count)` (lines 167-170): `assert(count <= size())`, then a
dynamic-extent view `(end() - count, count)`. -/
def last (v : contiguous_view sizeofT Extent) (count : Nat) :
    Option (contiguous_view sizeofT dynamic_extent) :=
  if count ≤ v.size then
    ofPtrCount sizeofT dynamic_extent (v.endp - count * sizeofT) count
  else none

/-- Source `as_bytes_return_size` (lines 174-175): `dynamic_extent` for a dynamic
source extent, else `sizeof(T) / sizeof(std​::byte) * Extent` in constexpr
`size_t` arithmetic (`sizeof(std​::byte) = 1`). -/
def as_bytes_return_size (sizeofT Extent : Nat) : Nat :=
  if Extent = dynamic_extent then dynamic_extent
  else (sizeofT / 1 * Extent) % size_t_card

/-- Source `as_bytes()` (lines 178-181): a view of byte-sized elements
(`sizeof = 1`) at the reinterpreted `data()` address, with count
`size_bytes()`, built through the `(pointer, count)` constructor of the
target type `contiguous_view<byte-ish, as_bytes_return_size>`. -/
def as_bytes (v : contiguous_view sizeofT Extent) :
    Option (contiguous_view 1 (as_bytes_return_size sizeofT Extent)) :=
  ofPtrCount 1 (as_bytes_return_size sizeofT Extent) v.data v.size_bytes

end contiguous_view

/-! ## Explicit-state renderings of member-function calls

Every member function of `contiguous_view` is declared `const` and assigns
to neither `st` nor `_data`; translating a call as an explicit state pass
(receiver in, receiver out together with the returned value) therefore
threads the receiver through unchanged.  These wrappers make that frame
property a statable fact. -/

/-- Calling `data()` on `v`: result together with the receiver afterwards. -/
def contiguous_view.call_data {s E : Nat} (v : contiguous_view s E) :
    Int × contiguous_view s E :=
  (v.data, v)

/-- Calling `size()` on `v`: result together with the receiver afterwards. -/
def contiguous_view.call_size {s E : Nat} (v : contiguous_view s E) :
    Nat × contiguous_view s E :=
  (v.size, v)

/-- Calling `size_bytes()` on `v`. -/
def contiguous_view.call_size_bytes {s E : Nat} (v : contiguous_view s E) :
    Nat × contiguous_view s E :=
  (v.size_bytes, v)

/-- Calling `empty()` on `v`. -/
def contiguous_view.call_empty {s E : Nat} (v : contiguous_view s E) :
    Bool × contiguous_view s E :=
  (v.empty, v)

/-- Calling `begin()` on `v`. -/
def contiguous_view.call_begin {s E : Nat} (v : contiguous_view s E) :
    Int × contiguous_view s E :=
  (v.begin, v)

/-- Calling `end()` on `v`. -/
def contiguous_view.call_end {s E : Nat} (v : contiguous_view s E) :
    Int × contiguous_view s E :=
  (v.endp, v)

/-- Calling `cbegin()` on `v`. -/
def contiguous_view.call_cbegin {s E : Nat} (v : contiguous_view s E) :
    Int × contiguous_view s E :=
  (v.cbegin, v)

/-- Calling `cend()` on `v`. -/
def contiguous_view.call_cend {s E : Nat} (v : contiguous_view s E) :
    Int × contiguous_view s E :=
  (v.cend, v)

/-- Calling `operator[](idx)` on `v`. -/
def contiguous_view.call_getAt {s E : Nat} (v : contiguous_view s E) (idx : Nat) :
    Option Int × contiguous_view s E :=
  (v.getAt idx, v)

/-- Calling `front()` on `v`. -/
def contiguous_view.call_front {s E : Nat} (v : contiguous_view s E) :
    Int × contiguous_view s E :=
  (v.front, v)

/-- Calling `back()` on `v`. -/
def contiguous_view.call_back {s E : Nat} (v : contiguous_view s E) :
    Int × contiguous_view s E :=
  (v.back, v)

/-- Calling `subview(offset, count)` on `v`. -/
def contiguous_view.call_subview {s E : Nat} (v : contiguous_view s E)
    (offset count : Nat) :
    Option (contiguous_view s dynamic_extent) × contiguous_view s E :=
  (v.subview offset count, v)

/-- Calling `first(count)` on `v`. -/
def contiguous_view.call_first {s E : Nat} (v : contiguous_view s E) (count : Nat) :
    Option (contiguous_view s dynamic_extent) × contiguous_view s E :=
  (v.first count, v)

/-- Calling `last(count)` on `v`. -/
def contiguous_view.call_last {s E : Nat} (v : contiguous_view s E) (count : Nat) :
    Option (contiguous_view s dynamic_extent) × contiguous_view s E :=
  (v.last count, v)

/-- Calling `as_bytes()` on `v`. -/
def contiguous_view.call_as_bytes {s E : Nat} (v : contiguous_view s E) :
    Option (contiguous_view 1 (contiguous_view.as_bytes_return_size s E)) ×
      contiguous_view s E :=
  (v.as_bytes, v)

/-! ## Helper lemmas -/

/-- Unfolding `storage.ofCount` through `storage.size`. -/
theorem details.storage.size_ofCount (E c : Nat) :
    (details.storage.ofCount E c).size = if E = dynamic_extent then c else E := by
  unfold details.storage.ofCount details.storage.size
  split <;> simp_all

/-- The `(pointer, count)` constructor at dynamic extent always succeeds and
stores the count verbatim. -/
theorem contiguous_view.ofPtrCount_dyn (s : Nat) (p : Int) (c : Nat) :
    contiguous_view.ofPtrCount s dynamic_extent p c = some ⟨⟨c⟩, p⟩ := by
  simp [contiguous_view.ofPtrCount, details.storage.ofCount]

/-- Size of a dynamic-extent view built from raw fields. -/
theorem contiguous_view.size_mk_dyn (s c : Nat) (p : Int) :
    (⟨⟨c⟩, p⟩ : contiguous_view s dynamic_extent).size = c := by
  simp [contiguous_view.size, details.storage.size]

/-- Helper: the `(pointer, count)` constructor succeeds whenever the count is
acceptable (equal to a static extent, or arbitrary at dynamic extent), and the
resulting view's size is that count. -/
theorem contiguous_view.ofPtrCount_valid (s Ext : Nat) (p : Int) (c : Nat)
    (h : c = Ext ∨ Ext = dynamic_extent) :
    contiguous_view.ofPtrCount s Ext p c =
        some ⟨details.storage.ofCount Ext c, p⟩ ∧
      (⟨details.storage.ofCount Ext c, p⟩ : contiguous_view s Ext).size = c := by
  constructor
  · unfold contiguous_view.ofPtrCount
    rcases h with h | h <;> simp [h]
  · rw [contiguous_view.size, details.storage.size_ofCount]
    rcases h with h | h <;> simp [h]

/-! ## The claims -/

/-- Claim C1: for every valid `(location, count)` pair (any count at dynamic
extent, `count = Extent` at a static one; `sizeof(T) * count` representable in
`size_t`), constructing a view from them succeeds, and reading `data()`,
`size()` and `size_bytes()` returns `location`, `count` and
`count * sizeof(T)` respectively. -/
theorem C1_ctor_data_size_size_bytes (s E : Nat) (loc : Int) (count : Nat)
    (hvalid : E = dynamic_extent ∨ count = E)
    (hfit : s * count < size_t_card) :
    ∃ v : contiguous_view s E, contiguous_view.ofPtrCount s E loc count = some v ∧
      v.data = loc ∧ v.size = count ∧ v.size_bytes = count * s := by
  refine ⟨⟨details.storage.ofCount E count, loc⟩, ?_, rfl, ?_, ?_⟩
  · unfold contiguous_view.ofPtrCount
    rcases hvalid with h | h <;> simp [h]
  · rw [contiguous_view.size, details.storage.size_ofCount]
    rcases hvalid with h | h <;> simp [h]
  · rw [contiguous_view.size_bytes, contiguous_view.size, details.storage.size_ofCount]
    have hsz : (if E = dynamic_extent then count else E) = count := by
      rcases hvalid with h | h <;> simp [h]
    rw [hsz, Nat.mod_eq_of_lt hfit, Nat.mul_comm]

/-- Witness for C1: a dynamic-extent view of 3 elements of size 4 at
address 16. -/
theorem C1_ctor_witness :
    ∃ v : contiguous_view 4 dynamic_extent,
      contiguous_view.ofPtrCount 4 dynamic_extent 16 3 = some v ∧
        v.data = 16 ∧ v.size = 3 ∧ v.size_bytes = 3 * 4 :=
  C1_ctor_data_size_size_bytes 4 dynamic_extent 16 3 (Or.inl rfl) (by decide)

/-- Counterexample to claim C2: `front()` and `back()` contain no
assertion-style check (lines 110-116 of the source have no `assert`).  On the
empty view over address 100 with element size 4, both complete normally:
`front()` dereferences address 100 and `back()` dereferences address 96 — an
address one whole element *before* the view's storage — instead of halting on
a failed assertion. -/
theorem C2_no_assert_counterexample :
    contiguous_view.ofPtrCount 4 dynamic_extent 100 0 =
        some (⟨⟨0⟩, 100⟩ : contiguous_view 4 dynamic_extent) ∧
      (⟨⟨0⟩, (100 : Int)⟩ : contiguous_view 4 dynamic_extent).empty = true ∧
      (⟨⟨0⟩, (100 : Int)⟩ : contiguous_view 4 dynamic_extent).front = 100 ∧
      (⟨⟨0⟩, (100 : Int)⟩ : contiguous_view 4 dynamic_extent).back = 96 := by
  refine ⟨contiguous_view.ofPtrCount_dyn 4 100 0, ?_, rfl, ?_⟩
  · decide
  · show (100 : Int) + 0 * 4 - 4 = 96
    norm_num

/-- Claim C2 (amended): calling `front()` or `back()` on an empty view is
*not* caught by any assertion-style check — the functions perform no check in
any build and an empty-view call dereferences out of bounds; for every
non-empty view, `front()` returns a reference to the first element (the
address `data()`) and `back()` a reference to the last element (the address
`data() + (size() - 1) * sizeof(T)`). -/
theorem C2_front_back_nonempty (s E : Nat) (v : contiguous_view s E)
    (h : 0 < v.size) :
    v.front = v.data ∧ v.back = v.data + ((v.size - 1 : Nat) : Int) * s := by
  refine ⟨rfl, ?_⟩
  rw [contiguous_view.back, contiguous_view.endp, contiguous_view.begin]
  rw [Nat.cast_sub h]
  push_cast
  ring

/-- Witness for C2 (amended): a 2-element view of element size 4 at
address 100. -/
theorem C2_front_back_witness :
    (⟨⟨2⟩, (100 : Int)⟩ : contiguous_view 4 dynamic_extent).front = 100 ∧
      (⟨⟨2⟩, (100 : Int)⟩ : contiguous_view 4 dynamic_extent).back =
        100 + (((2 : Nat) - 1 : Nat) : Int) * 4 :=
  C2_front_back_nonempty 4 dynamic_extent ⟨⟨2⟩, 100⟩ (by decide)

/-- Claim C3: a dynamic-extent view of runtime length 5 converts successfully
into a static-extent-5 view preserving `data()` and `size()`; converting it
into a static-extent-4 view trips the checked contract (the conversion
delegates to the `(pointer, count)` constructor, whose assertion fails); in
general a static-extent construction from a count succeeds exactly when the
count equals the static extent. -/
theorem C3_convert_static (s : Nat) (v : contiguous_view s dynamic_extent)
    (h5 : v.size = 5) :
    (∃ w : contiguous_view s 5, contiguous_view.ofView s 5 v = some w ∧
        w.data = v.data ∧ w.size = 5) ∧
      contiguous_view.ofView s 4 v = none ∧
      (∀ (E : Nat) (p : Int) (c : Nat), E ≠ dynamic_extent →
        ((contiguous_view.ofPtrCount s E p c).isSome ↔ c = E)) := by
  have hsz : details.storage.size v.st = 5 := h5
  refine ⟨⟨⟨details.storage.ofCount 5 5, v._data⟩, ?_, rfl, ?_⟩, ?_, ?_⟩
  · unfold contiguous_view.ofView contiguous_view.ofPtrCount
    rw [hsz]
    simp
  · rw [contiguous_view.size, details.storage.size_ofCount, if_neg (by decide)]
  · unfold contiguous_view.ofView contiguous_view.ofPtrCount
    rw [hsz]
    simp [show (4 : Nat) ≠ dynamic_extent by decide]
  · intro E p c hE
    unfold contiguous_view.ofPtrCount
    by_cases hc : c = E <;> simp [hc, hE]

/-- Witness for C3: the dynamic view of 5 elements of size 4 at address 40. -/
theorem C3_convert_witness :
    (∃ w : contiguous_view 4 5, contiguous_view.ofView 4 5
          (⟨⟨5⟩, 40⟩ : contiguous_view 4 dynamic_extent) = some w ∧
        w.data = (⟨⟨5⟩, (40 : Int)⟩ : contiguous_view 4 dynamic_extent).data ∧
          w.size = 5) ∧
      contiguous_view.ofView 4 4 (⟨⟨5⟩, 40⟩ : contiguous_view 4 dynamic_extent) = none ∧
      (∀ (E : Nat) (p : Int) (c : Nat), E ≠ dynamic_extent →
        ((contiguous_view.ofPtrCount 4 E p c).isSome ↔ c = E)) :=
  C3_convert_static 4 ⟨⟨5⟩, 40⟩ (by decide)

/-- Claim C4: every statically-extented view has `size() = Extent`, whatever
constructor produced it and whatever runtime count was supplied (the static
extent storage ignores its stored field); and the `(pointer, count)`
construction at a static extent succeeds exactly when the count equals the
constant — any other count is the checked contract failure. -/
theorem C4_static_size_invariant (s E : Nat) (hE : E ≠ dynamic_extent) :
    (∀ v : contiguous_view s E, v.size = E) ∧
      (∀ (p : Int) (c : Nat), (contiguous_view.ofPtrCount s E p c).isSome ↔ c = E) := by
  constructor
  · intro v
    rw [contiguous_view.size, details.storage.size, if_neg hE]
  · intro p c
    unfold contiguous_view.ofPtrCount
    by_cases hc : c = E <;> simp [hc, hE]

/-- Witness for C4: static extent 3, element size 8. -/
theorem C4_static_size_witness :
    (∀ v : contiguous_view 8 3, v.size = 3) ∧
      (∀ (p : Int) (c : Nat), (contiguous_view.ofPtrCount 8 3 p c).isSome ↔ c = 3) :=
  C4_static_size_invariant 8 3 (by decide)

/-- Counterexample to claim C5: with `d = dynamic_extent` — a value the
`subview` assertion accepts, whether defaulted or passed explicitly — both
`v.subview(a, b).subview(c, d)` and `v.subview(a + c, d)` satisfy their
bounds preconditions (both calls complete), yet on a 5-element view with
`a = 0`, `b = 2`, `c = 0` the left side has size 2 while the right side has
size 5, so the two are not equal. -/
theorem C5_sentinel_counterexample :
    ((⟨⟨5⟩, 0⟩ : contiguous_view 4 dynamic_extent).subview 0 2).bind
        (fun w => w.subview 0 dynamic_extent) =
      some (⟨⟨2⟩, 0⟩ : contiguous_view 4 dynamic_extent) ∧
    (⟨⟨5⟩, (0 : Int)⟩ : contiguous_view 4 dynamic_extent).subview (0 + 0) dynamic_extent =
      some (⟨⟨5⟩, 0⟩ : contiguous_view 4 dynamic_extent) ∧
    (⟨⟨2⟩, (0 : Int)⟩ : contiguous_view 4 dynamic_extent).size ≠
      (⟨⟨5⟩, (0 : Int)⟩ : contiguous_view 4 dynamic_extent).size := by
  refine ⟨?_, ?_, by decide⟩ <;> decide

/-- Claim C5 (amended): subview composition — for every view `v` and
offsets/counts `a`, `b`, `c`, `d` with `d` an actual count (not the
`dynamic_extent` rest-sentinel) such that both expressions satisfy their
bounds preconditions, `v.subview(a, b).subview(c, d)` equals
`v.subview(a + c, d)` (same `data()` and same `size()`). -/
theorem C5_subview_comp (s E : Nat) (v : contiguous_view s E) (a b c d : Nat)
    (hd : d ≠ dynamic_extent)
    (ha : a ≤ v.size) (hb : b = dynamic_extent ∨ b ≤ v.size - a)
    (hc : c ≤ (if b = dynamic_extent then v.size - a else b))
    (hdc : d ≤ (if b = dynamic_extent then v.size - a else b) - c) :
    (v.subview a b).bind (fun w => w.subview c d) = v.subview (a + c) d := by
  have hb' : (if b = dynamic_extent then v.size - a else b) ≤ v.size - a := by
    split
    · exact Nat.le_refl _
    · exact hb.resolve_left (by assumption)
  unfold contiguous_view.subview
  rw [if_pos ⟨ha, hb⟩]
  rw [contiguous_view.ofPtrCount_dyn]
  simp only [Option.some_bind, contiguous_view.size_mk_dyn, contiguous_view.data, if_neg hd]
  rw [if_pos (show c ≤ (if b = dynamic_extent then v.size - a else b) ∧
      (d = dynamic_extent ∨ d ≤ (if b = dynamic_extent then v.size - a else b) - c) from
    ⟨hc, Or.inr hdc⟩)]
  rw [if_pos (show a + c ≤ v.size ∧ (d = dynamic_extent ∨ d ≤ v.size - (a + c)) from
    ⟨by omega, Or.inr (by omega)⟩)]
  rw [contiguous_view.ofPtrCount_dyn, contiguous_view.ofPtrCount_dyn]
  have haddr : v._data + (a : Int) * s + (c : Int) * s =
      v._data + ((a + c : Nat) : Int) * s := by
    push_cast
    ring
  rw [haddr]

/-- Witness for C5 (amended): a 10-element view, `a = 2`, `b = 6`, `c = 1`,
`d = 3`. -/
theorem C5_subview_comp_witness :
    ((⟨⟨10⟩, 0⟩ : contiguous_view 4 dynamic_extent).subview 2 6).bind
        (fun w => w.subview 1 3) =
      (⟨⟨10⟩, (0 : Int)⟩ : contiguous_view 4 dynamic_extent).subview (2 + 1) 3 :=
  C5_subview_comp 4 dynamic_extent ⟨⟨10⟩, 0⟩ 2 6 1 3 (by decide) (by decide)
    (Or.inr (by decide)) (by decide) (by decide)

/-- Claim C6: for every view `v` and every `n ≤ v.size()`, `v.first(n)` is a
view of size `n` starting at `v.data()`, and `v.last(n)` is a view of size
`n` starting at `v.data() + (v.size() - n)` elements (byte address
`v.data() + (v.size() - n) * sizeof(T)`). -/
theorem C6_first_last (s E : Nat) (v : contiguous_view s E) (n : Nat)
    (h : n ≤ v.size) :
    (∃ w : contiguous_view s dynamic_extent,
        v.first n = some w ∧ w.size = n ∧ w.data = v.data) ∧
      (∃ w : contiguous_view s dynamic_extent,
        v.last n = some w ∧ w.size = n ∧
          w.data = v.data + ((v.size - n : Nat) : Int) * s) := by
  constructor
  · refine ⟨⟨⟨n⟩, v.data⟩, ?_, contiguous_view.size_mk_dyn s n _, rfl⟩
    unfold contiguous_view.first
    rw [if_pos h, contiguous_view.ofPtrCount_dyn]
    rfl
  · refine ⟨⟨⟨n⟩, v.endp - n * s⟩, ?_, contiguous_view.size_mk_dyn s n _, ?_⟩
    · unfold contiguous_view.last
      rw [if_pos h, contiguous_view.ofPtrCount_dyn]
    · show v.endp - (n : Int) * s = v.data + ((v.size - n : Nat) : Int) * s
      rw [contiguous_view.endp, contiguous_view.begin, Nat.cast_sub h]
      ring

/-- Witness for C6: a 5-element view of element size 4, `n = 2`. -/
theorem C6_first_last_witness :
    (∃ w : contiguous_view 4 dynamic_extent,
        (⟨⟨5⟩, (0 : Int)⟩ : contiguous_view 4 dynamic_extent).first 2 = some w ∧
          w.size = 2 ∧
          w.data = (⟨⟨5⟩, (0 : Int)⟩ : contiguous_view 4 dynamic_extent).data) ∧
      (∃ w : contiguous_view 4 dynamic_extent,
        (⟨⟨5⟩, (0 : Int)⟩ : contiguous_view 4 dynamic_extent).last 2 = some w ∧
          w.size = 2 ∧
          w.data = (⟨⟨5⟩, (0 : Int)⟩ : contiguous_view 4 dynamic_extent).data +
            ((((⟨⟨5⟩, (0 : Int)⟩ : contiguous_view 4 dynamic_extent).size - 2 : Nat)) : Int) * 4) :=
  C6_first_last 4 dynamic_extent ⟨⟨5⟩, 0⟩ 2 (by decide)

/-- Claim C7: `as_bytes()` succeeds on every view, addresses the same memory
as `v.data()`, and has size `v.size() * sizeof(T)` (when that product is
representable in `size_t`); the resulting extent is the byte count
`sizeof(T) * Extent` for a static source extent and `dynamic_extent` for a
dynamic one. -/
theorem C7_as_bytes (s E : Nat) (v : contiguous_view s E)
    (hfit : s * v.size < size_t_card) :
    (∃ w : contiguous_view 1 (contiguous_view.as_bytes_return_size s E),
        v.as_bytes = some w ∧ w.data = v.data ∧ w.size = v.size * s) ∧
      (E = dynamic_extent →
        contiguous_view.as_bytes_return_size s E = dynamic_extent) ∧
      (E ≠ dynamic_extent →
        contiguous_view.as_bytes_return_size s E = s * E) := by
  have hbytes : v.size_bytes = v.size * s := by
    rw [contiguous_view.size_bytes, Nat.mod_eq_of_lt hfit, Nat.mul_comm]
  have hok : v.size_bytes = contiguous_view.as_bytes_return_size s E ∨
      contiguous_view.as_bytes_return_size s E = dynamic_extent := by
    by_cases hE : E = dynamic_extent
    · right
      rw [contiguous_view.as_bytes_return_size, if_pos hE]
    · left
      have hsz : v.size = E := by
        rw [contiguous_view.size, details.storage.size, if_neg hE]
      rw [contiguous_view.as_bytes_return_size, if_neg hE, Nat.div_one,
        contiguous_view.size_bytes, hsz]
  obtain ⟨heq, hsize⟩ := contiguous_view.ofPtrCount_valid 1
    (contiguous_view.as_bytes_return_size s E) v.data v.size_bytes hok
  refine ⟨⟨⟨details.storage.ofCount _ v.size_bytes, v.data⟩, ?_, rfl, ?_⟩, ?_, ?_⟩
  · rw [contiguous_view.as_bytes, heq]
  · rw [hsize, hbytes]
  · intro hE
    rw [contiguous_view.as_bytes_return_size, if_pos hE]
  · intro hE
    have hsz : v.size = E := by
      rw [contiguous_view.size, details.storage.size, if_neg hE]
    rw [contiguous_view.as_bytes_return_size, if_neg hE, Nat.div_one,
      Nat.mod_eq_of_lt (hsz ▸ hfit)]

/-- Witness for C7: a 3-element view of element size 4 at address 8. -/
theorem C7_as_bytes_witness :
    (∃ w : contiguous_view 1 (contiguous_view.as_bytes_return_size 4 dynamic_extent),
        (⟨⟨3⟩, (8 : Int)⟩ : contiguous_view 4 dynamic_extent).as_bytes = some w ∧
          w.data = (⟨⟨3⟩, (8 : Int)⟩ : contiguous_view 4 dynamic_extent).data ∧
          w.size = (⟨⟨3⟩, (8 : Int)⟩ : contiguous_view 4 dynamic_extent).size * 4) ∧
      (dynamic_extent = dynamic_extent →
        contiguous_view.as_bytes_return_size 4 dynamic_extent = dynamic_extent) ∧
      (dynamic_extent ≠ dynamic_extent →
        contiguous_view.as_bytes_return_size 4 dynamic_extent = 4 * dynamic_extent) :=
  C7_as_bytes 4 dynamic_extent ⟨⟨3⟩, 8⟩ (by decide)

/-- Claim C8: for iterators `f ≤ l` over the same storage (so that `l` is `f`
advanced by a whole number `k` of elements, `k` representable in `size_t`),
the `(first, last)` constructor produces exactly what the
`(first, last - first)` constructor produces — the same `Option`-valued
outcome, hence the same `data()` and `size()` on success, at both dynamic and
static extents; and whenever `last < first`, the checked contract fails. -/
theorem C8_range_equiv (s E : Nat) (f l : Int) (k : Nat)
    (hs : 0 < s) (halign : l = f + (k : Int) * s) (hk : k < size_t_card) :
    contiguous_view.ofPtrPtr s E f l = contiguous_view.ofPtrCount s E f k ∧
      (∀ g m : Int, m < g → contiguous_view.ofPtrPtr s E g m = none) := by
  constructor
  · have hdiff : ((l - f) / (s : Int)).toNat % size_t_card = k := by
      rw [halign]
      rw [add_sub_cancel_left]
      rw [Int.mul_ediv_cancel _ (by exact_mod_cast hs.ne')]
      rw [Int.toNat_natCast]
      exact Nat.mod_eq_of_lt hk
    have hfl : f ≤ l := by
      rw [halign, le_add_iff_nonneg_right]
      positivity
    unfold contiguous_view.ofPtrPtr
    rw [hdiff]
    cases hv : contiguous_view.ofPtrCount s E f k
    · rfl
    · simp [hfl]
  · intro g m hlt
    unfold contiguous_view.ofPtrPtr
    cases hv : contiguous_view.ofPtrCount s E g (((m - g) / (s : Int)).toNat % size_t_card)
    · rfl
    · simp [not_le.mpr hlt]

/-- Witness for C8: element size 4, `f = 0`, `l = 8`, so `k = 2` elements. -/
theorem C8_range_equiv_witness :
    contiguous_view.ofPtrPtr 4 dynamic_extent 0 8 =
        contiguous_view.ofPtrCount 4 dynamic_extent 0 2 ∧
      (∀ g m : Int, m < g → contiguous_view.ofPtrPtr 4 dynamic_extent g m = none) :=
  C8_range_equiv 4 dynamic_extent 0 8 2 (by decide) (by norm_num) (by decide)

/-- Claim C9: for every view `v` and offset `o ≤ v.size()`, calling
`subview(o, dynamic_extent)` — the defaulted argument is literally the
sentinel `dynamic_extent`, so the defaulted and the explicit `SIZE_MAX` call
are one and the same — returns a dynamic-extent view of exactly
`v.size() - o` elements starting at `v.data() + o` elements. -/
theorem C9_subview_rest (s E : Nat) (v : contiguous_view s E) (o : Nat)
    (h : o ≤ v.size) :
    v.subview o = v.subview o dynamic_extent ∧
      ∃ w : contiguous_view s dynamic_extent,
        v.subview o dynamic_extent = some w ∧ w.size = v.size - o ∧
          w.data = v.data + (o : Int) * s := by
  refine ⟨rfl, ⟨⟨v.size - o⟩, v.data + o * s⟩, ?_, contiguous_view.size_mk_dyn s _ _, rfl⟩
  unfold contiguous_view.subview
  rw [if_pos ⟨h, Or.inl rfl⟩, if_pos rfl, contiguous_view.ofPtrCount_dyn]

/-- Witness for C9: a 5-element view, `o = 1`. -/
theorem C9_subview_rest_witness :
    (⟨⟨5⟩, (0 : Int)⟩ : contiguous_view 4 dynamic_extent).subview 1 =
        (⟨⟨5⟩, (0 : Int)⟩ : contiguous_view 4 dynamic_extent).subview 1 dynamic_extent ∧
      ∃ w : contiguous_view 4 dynamic_extent,
        (⟨⟨5⟩, (0 : Int)⟩ : contiguous_view 4 dynamic_extent).subview 1 dynamic_extent =
            some w ∧
          w.size = (⟨⟨5⟩, (0 : Int)⟩ : contiguous_view 4 dynamic_extent).size - 1 ∧
          w.data = (⟨⟨5⟩, (0 : Int)⟩ : contiguous_view 4 dynamic_extent).data +
            ((1 : Nat) : Int) * 4 :=
  C9_subview_rest 4 dynamic_extent ⟨⟨5⟩, 0⟩ 1 (by decide)

/-- Claim C10: no public operation mutates the view it is called on — every
member function is `const` and assigns to neither field, so the
explicit-state rendering of each call returns the receiver unchanged, and the
sub-range and byte operations deliver their results as new view values in the
call's result component. -/
theorem C10_const_methods (s E : Nat) (v : contiguous_view s E)
    (idx offset count n m : Nat) :
    (v.call_data).2 = v ∧ (v.call_size).2 = v ∧ (v.call_size_bytes).2 = v ∧
      (v.call_empty).2 = v ∧ (v.call_begin).2 = v ∧ (v.call_end).2 = v ∧
      (v.call_cbegin).2 = v ∧ (v.call_cend).2 = v ∧ (v.call_getAt idx).2 = v ∧
      (v.call_front).2 = v ∧ (v.call_back).2 = v ∧
      (v.call_subview offset count).2 = v ∧ (v.call_first n).2 = v ∧
      (v.call_last m).2 = v ∧ (v.call_as_bytes).2 = v ∧
      (v.call_subview offset count).1 = v.subview offset count ∧
      (v.call_first n).1 = v.first n ∧ (v.call_last m).1 = v.last m ∧
      (v.call_as_bytes).1 = v.as_bytes :=
  ⟨rfl, rfl, rfl, rfl, rfl, rfl, rfl, rfl, rfl, rfl, rfl, rfl, rfl, rfl, rfl,
    rfl, rfl, rfl, rfl⟩
